import Mathlib

/-!
Shallow embedding of the NECOS Network Manager (`network_manager.py`): the static
port dictionaries, the in-memory slice registry, and the two lifecycle
operations `create_network_slice` / `delete_network_slice`.  External side
effects (OpenFlow rule submission/removal, the SSH session to the Brocade
switch) are modelled as an event trace; Python exceptions (`KeyError`,
`ValueError`) are modelled with `Option`/`Except`.
-/

namespace NetworkManager

/-- Python `k in d` on a dict modelled as an association list. -/
def dictContains {β : Type} (k : String) (d : List (String × β)) : Bool :=
  d.any (fun kv => kv.1 == k)

/-- Python `d[k] = v`: overwrite in place when the key exists, append otherwise
(Python dicts keep insertion order and overwrite values in place). -/
def dictInsert {β : Type} (k : String) (v : β) (d : List (String × β)) :
    List (String × β) :=
  if dictContains k d then d.map (fun kv => if kv.1 == k then (k, v) else kv)
  else d ++ [(k, v)]

/-- Python `del d[k]`. -/
def dictRemove {β : Type} (k : String) (d : List (String × β)) :
    List (String × β) :=
  d.filter (fun kv => !(kv.1 == k))

/-- Python `int(s)` on a plain decimal string; `none` models the `ValueError`
raise (every value actually stored in the two static dictionaries is a plain
decimal string, so the conversion never raises in deployed configurations). -/
def parse_nat (s : String) : Option Nat :=
  if s.data.isEmpty || !(s.data.all Char.isDigit) then none
  else some (s.data.foldl (fun acc c => acc * 10 + (c.toNat - 48)) 0)

/-- Network resources dictionary: each Icarus node is associated with a static
physical port number on the Pronto switch. -/
def resource_dictionary : List (String × String) :=
  [("icarus1", "1"), ("icarus5", "3"), ("icarus8", "5"), ("icarus9", "7"),
   ("entry1", "9"), ("entry2", "13")]

/-- Brocade ports dictionary: relates a Pronto physical port number with a
physical port number on the Brocade switch. -/
def control_resource_dictionary : List (String × String) :=
  [("1", "7"), ("3", "3"), ("5", "9"), ("7", "5")]

/-- `host_to_port`: translates a host name (e.g. `icarus1`) to its physical
port number on the Pronto switch, `int(resource_dictionary[host_name])`;
`none` models the raise (`KeyError` for an unmapped name). -/
def host_to_port (d : List (String × String)) (host_name : String) : Option Nat :=
  (d.lookup host_name).bind parse_nat

/-- `port_translate_to_brocade`: translates a Pronto physical port number to
its port number on the Brocade switch,
`int(control_resource_dictionary[str(port_to_translate)])`; `none` models the
raise (`KeyError` for a port with no control entry). -/
def port_translate_to_brocade (d : List (String × String))
    (port_to_translate : Nat) : Option Nat :=
  (d.lookup (toString port_to_translate)).bind parse_nat

/-- Observable external side effects of one lifecycle call. -/
inductive Event : Type
  | sshOpen : Event
  | sshCmd (cmd : String) : Event
  | sshClose : Event
  | submitRule (matchPort : Nat) (actionPorts : List Nat) (priority : Nat) : Event
  | removeRule (matchPort : Nat) : Event
  deriving DecidableEq, Repr

/-- Non-fatal logged signals. -/
inductive Signal : Type
  | conflict (slice_id : String) : Signal
  | notFound (slice_id : String) : Signal
  deriving DecidableEq, Repr

/-- Fatal errors (uncaught Python exceptions) of a lifecycle call. -/
inductive NMError : Type
  | unknownResource (name : String) : NMError
  deriving DecidableEq, Repr

/-- The module-level mutable state: the two static dictionaries and the slice
registry `slices` (a dict whose values the code only ever sets to `None`,
modelled as `Option (List String)` so the spec's member-set reading is
expressible). -/
structure NMState : Type where
  resource_dictionary : List (String × String)
  control_resource_dictionary : List (String × String)
  slices : List (String × Option (List String))
  deriving DecidableEq, Repr

/-- Result of one lifecycle call: final state, external-call trace, logged
signals, and the fatal error if the call raised. -/
structure OpResult : Type where
  state : NMState
  trace : List Event
  signals : List Signal
  error : Option NMError
  deriving DecidableEq, Repr

/-- The CLI script sent by `rem_port_from_control`. -/
def remove_control_cmd (port_to_remove : Nat) : String :=
  "enable\nconfig t\nvlan 444\nno untagged ethernet 1/" ++ toString port_to_remove
    ++ "\nwrite memory\nexit\n"

/-- The CLI script sent by `add_port_to_control`. -/
def add_control_cmd (port_to_add : Nat) : String :=
  "enable\nconfig t\nvlan 444\nuntagged ethernet 1/" ++ toString port_to_add
    ++ "\nwrite memory\nexit\n"

/-- `rem_port_from_control`: open the SSH session, send the VLAN-removal
script, close the session. -/
def rem_port_from_control (port_to_remove : Nat) : List Event :=
  [Event.sshOpen, Event.sshCmd (remove_control_cmd port_to_remove), Event.sshClose]

/-- `add_port_to_control`: open the SSH session, send the VLAN-add script,
close the session. -/
def add_port_to_control (port_to_add : Nat) : List Event :=
  [Event.sshOpen, Event.sshCmd (add_control_cmd port_to_add), Event.sshClose]

/-- `[self.host_to_port(port) for port in slice_members]`: resolves members
left to right, the first unmapped name raising `KeyError` before any loop
iteration runs. -/
def resolvePorts (d : List (String × String)) : List String → Except String (List Nat)
  | [] => Except.ok []
  | h :: t =>
    match host_to_port d h with
    | none => Except.error h
    | some p => (resolvePorts d t).map (fun ps => p :: ps)

/-- One iteration of the create loop (lines 69-84): VLAN exclusion when the
in_port has a control entry, then the mesh flow rule matching the in_port with
all other member ports as output actions, at priority 1.  The `getD 0` default
of the translation is unreachable: the loop body only calls it under the
membership guard, where the lookup succeeds. -/
def create_port_step (ctl : List (String × String))
    (slice_port_members : List Nat) (in_port : Nat) : List Event :=
  (if dictContains (toString in_port) ctl then
      rem_port_from_control ((port_translate_to_brocade ctl in_port).getD 0)
    else [])
    ++ [Event.submitRule in_port
          (slice_port_members.filter (fun item => item != in_port)) 1]

/-- One iteration of the delete loop (lines 101-110): VLAN restore when the
in_port has a control entry, then removal of the flow rule matching the
in_port. -/
def delete_port_step (ctl : List (String × String)) (in_port : Nat) : List Event :=
  (if dictContains (toString in_port) ctl then
      add_port_to_control ((port_translate_to_brocade ctl in_port).getD 0)
    else [])
    ++ [Event.removeRule in_port]

/-- `create_network_slice(slice_id, slice_members)` (lines 62-87). -/
def create_network_slice (s : NMState) (slice_id : String)
    (slice_members : List String) : OpResult :=
  let signals := if dictContains slice_id s.slices then [Signal.conflict slice_id] else []
  let s1 : NMState := { s with slices := dictInsert slice_id none s.slices }
  match resolvePorts s.resource_dictionary slice_members with
  | Except.error name =>
    { state := s1, trace := [], signals := signals,
      error := some (NMError.unknownResource name) }
  | Except.ok slice_port_members =>
    { state := s1,
      trace := (slice_port_members.map
        (create_port_step s.control_resource_dictionary slice_port_members)).flatten,
      signals := signals, error := none }

/-- `delete_network_slice(slice_id, slice_members)` (lines 93-113). -/
def delete_network_slice (s : NMState) (slice_id : String)
    (slice_members : List String) : OpResult :=
  let signals := if dictContains slice_id s.slices then [] else [Signal.notFound slice_id]
  let s1 : NMState :=
    { s with slices :=
        if dictContains slice_id s.slices then dictRemove slice_id s.slices else s.slices }
  match resolvePorts s.resource_dictionary slice_members with
  | Except.error name =>
    { state := s1, trace := [], signals := signals,
      error := some (NMError.unknownResource name) }
  | Except.ok slice_port_members =>
    { state := s1,
      trace := (slice_port_members.map
        (delete_port_step s.control_resource_dictionary)).flatten,
      signals := signals, error := none }

/-- Process start: the two static dictionaries as hardcoded, no active slices. -/
def initialState : NMState :=
  { resource_dictionary := resource_dictionary,
    control_resource_dictionary := control_resource_dictionary,
    slices := [] }

/-- The forwarding rules submitted in a trace, in order. -/
def ruleOf : Event → Option (Nat × List Nat)
  | Event.submitRule p acts _ => some (p, acts)
  | _ => none

/-- All (match-port, action-port-list) pairs submitted in a trace. -/
def submittedRules (tr : List Event) : List (Nat × List Nat) :=
  tr.filterMap ruleOf

/-! ### Dictionary lemmas -/

theorem lookup_append_single {β : Type} (k : String) (v : β)
    (d : List (String × β)) (h : dictContains k d = false) :
    (d ++ [(k, v)]).lookup k = some v := by
  induction d with
  | nil => simp [List.lookup]
  | cons kv t ih =>
    by_cases hk : kv.1 = k
    · have hb : (kv.1 == k) = true := beq_iff_eq.mpr hk
      simp [dictContains, hb] at h
    · have hbk : (k == kv.1) = false := beq_eq_false_iff_ne.mpr (Ne.symm hk)
      have ht : dictContains k t = false := by
        have hb : (kv.1 == k) = false := beq_eq_false_iff_ne.mpr hk
        simpa [dictContains, hb] using h
      simp [List.lookup, hbk, ih ht]

theorem lookup_overwrite {β : Type} (k : String) (v : β)
    (d : List (String × β)) (h : dictContains k d = true) :
    (d.map (fun kv => if kv.1 == k then (k, v) else kv)).lookup k = some v := by
  induction d with
  | nil => simp [dictContains] at h
  | cons kv t ih =>
    obtain ⟨a, b⟩ := kv
    rw [List.map_cons]
    by_cases hk : a = k
    · have hb : (a == k) = true := beq_iff_eq.mpr hk
      rw [if_pos hb]
      simp [List.lookup]
    · have hb : (a == k) = false := beq_eq_false_iff_ne.mpr hk
      have hbk : (k == a) = false := beq_eq_false_iff_ne.mpr (Ne.symm hk)
      have ht : dictContains k t = true := by
        simpa [dictContains, hb] using h
      rw [if_neg (by simp [hb])]
      simp only [List.lookup, hbk]
      exact ih ht

theorem lookup_dictInsert {β : Type} (k : String) (v : β) (d : List (String × β)) :
    (dictInsert k v d).lookup k = some v := by
  unfold dictInsert
  split
  next h => exact lookup_overwrite k v d h
  next h => exact lookup_append_single k v d (Bool.eq_false_iff.mpr h)

theorem dictContains_dictRemove {β : Type} (k : String) (d : List (String × β)) :
    dictContains k (dictRemove k d) = false := by
  unfold dictContains dictRemove
  rw [List.any_filter]
  apply List.any_eq_false.mpr
  intro a ha
  cases hb : a.1 == k <;> simp [hb]

/-! ### Resolution lemmas -/

theorem resolvePorts_error_of_unmapped (d : List (String × String))
    (members : List String) (name : String) (hmem : name ∈ members)
    (hmiss : host_to_port d name = none) :
    ∃ m, resolvePorts d members = Except.error m ∧ host_to_port d m = none := by
  induction members with
  | nil => cases hmem
  | cons h t ih =>
    cases hh : host_to_port d h with
    | none => exact ⟨h, by simp [resolvePorts, hh], hh⟩
    | some p =>
      rcases List.mem_cons.mp hmem with rfl | hmem'
      · rw [hh] at hmiss; cases hmiss
      · rcases ih hmem' with ⟨m, hm, hm2⟩
        exact ⟨m, by simp [resolvePorts, hh, hm, Except.map], hm2⟩

/-! ### Operation shape lemmas -/

theorem create_ok_eq (s : NMState) (slice_id : String) (slice_members : List String)
    (ports : List Nat)
    (hres : resolvePorts s.resource_dictionary slice_members = Except.ok ports) :
    create_network_slice s slice_id slice_members =
      { state := { s with slices := dictInsert slice_id none s.slices },
        trace := (ports.map
          (create_port_step s.control_resource_dictionary ports)).flatten,
        signals := if dictContains slice_id s.slices then [Signal.conflict slice_id] else [],
        error := none } := by
  unfold create_network_slice
  rw [hres]

theorem create_err_eq (s : NMState) (slice_id : String) (slice_members : List String)
    (name : String)
    (hres : resolvePorts s.resource_dictionary slice_members = Except.error name) :
    create_network_slice s slice_id slice_members =
      { state := { s with slices := dictInsert slice_id none s.slices },
        trace := [],
        signals := if dictContains slice_id s.slices then [Signal.conflict slice_id] else [],
        error := some (NMError.unknownResource name) } := by
  unfold create_network_slice
  rw [hres]

theorem delete_ok_eq (s : NMState) (slice_id : String) (slice_members : List String)
    (ports : List Nat)
    (hres : resolvePorts s.resource_dictionary slice_members = Except.ok ports) :
    delete_network_slice s slice_id slice_members =
      { state := { s with slices :=
          (if dictContains slice_id s.slices then dictRemove slice_id s.slices
            else s.slices) },
        trace := (ports.map (delete_port_step s.control_resource_dictionary)).flatten,
        signals := if dictContains slice_id s.slices then [] else [Signal.notFound slice_id],
        error := none } := by
  unfold delete_network_slice
  rw [hres]

theorem delete_err_eq (s : NMState) (slice_id : String) (slice_members : List String)
    (name : String)
    (hres : resolvePorts s.resource_dictionary slice_members = Except.error name) :
    delete_network_slice s slice_id slice_members =
      { state := { s with slices :=
          (if dictContains slice_id s.slices then dictRemove slice_id s.slices
            else s.slices) },
        trace := [],
        signals := if dictContains slice_id s.slices then [] else [Signal.notFound slice_id],
        error := some (NMError.unknownResource name) } := by
  unfold delete_network_slice
  rw [hres]

/-! ### Rule extraction lemmas -/

theorem flatten_map_singleton {α β : Type} (l : List α) (f : α → β) :
    (l.map (fun x => [f x])).flatten = l.map f := by
  induction l with
  | nil => rfl
  | cons h t ih => simp [ih]

theorem filterMap_ruleOf_create_port_step (ctl : List (String × String))
    (ports : List Nat) (p : Nat) :
    (create_port_step ctl ports p).filterMap ruleOf
      = [(p, ports.filter (fun item => item != p))] := by
  unfold create_port_step rem_port_from_control
  split <;> simp [ruleOf, List.filterMap_cons]

theorem submittedRules_create (s : NMState) (slice_id : String)
    (slice_members : List String) (ports : List Nat)
    (hres : resolvePorts s.resource_dictionary slice_members = Except.ok ports) :
    submittedRules (create_network_slice s slice_id slice_members).trace
      = ports.map (fun p => (p, ports.filter (fun item => item != p))) := by
  rw [create_ok_eq s slice_id slice_members ports hres]
  unfold submittedRules
  rw [List.filterMap_flatten, List.map_map]
  have hcomp : (List.filterMap ruleOf ∘ create_port_step s.control_resource_dictionary ports)
      = fun p => [(p, ports.filter (fun item => item != p))] := by
    funext p
    exact filterMap_ruleOf_create_port_step s.control_resource_dictionary ports p
  rw [hcomp, flatten_map_singleton]

theorem map_fst_pairs {α β : Type} (l : List α) (g : α → β) :
    (l.map (fun a => (a, g a))).map Prod.fst = l := by
  induction l with
  | nil => rfl
  | cons h t ih => simp [ih]

theorem lookup_none_of_not_contains {β : Type} (k : String)
    (d : List (String × β)) (h : dictContains k d = false) :
    d.lookup k = none := by
  induction d with
  | nil => rfl
  | cons kv t ih =>
    obtain ⟨a, b⟩ := kv
    by_cases hk : a = k
    · have hb : (a == k) = true := beq_iff_eq.mpr hk
      simp [dictContains, hb] at h
    · have hb : (a == k) = false := beq_eq_false_iff_ne.mpr hk
      have hbk : (k == a) = false := beq_eq_false_iff_ne.mpr (Ne.symm hk)
      have ht : dictContains k t = false := by
        simpa [dictContains, hb] using h
      simp [List.lookup, hbk, ih ht]

theorem lookup_isSome_of_contains {β : Type} (k : String)
    (d : List (String × β)) (h : dictContains k d = true) :
    ∃ v, d.lookup k = some v := by
  induction d with
  | nil => simp [dictContains] at h
  | cons kv t ih =>
    obtain ⟨a, b⟩ := kv
    by_cases hk : a = k
    · have hbk : (k == a) = true := beq_iff_eq.mpr hk.symm
      exact ⟨b, by simp [List.lookup, hbk]⟩
    · have hb : (a == k) = false := beq_eq_false_iff_ne.mpr hk
      have hbk : (k == a) = false := beq_eq_false_iff_ne.mpr (Ne.symm hk)
      have ht : dictContains k t = true := by
        simpa [dictContains, hb] using h
      rcases ih ht with ⟨v, hv⟩
      exact ⟨v, by simp [List.lookup, hbk, hv]⟩

theorem lookup_mem {β : Type} (k : String) (v : β) (d : List (String × β))
    (h : d.lookup k = some v) : ∃ k2, (k2, v) ∈ d := by
  induction d with
  | nil => cases h
  | cons kv t ih =>
    obtain ⟨a, b⟩ := kv
    cases hbk : (k == a) with
    | true =>
      have hbv : some b = some v := by simpa [List.lookup, hbk] using h
      cases Option.some_inj.mp hbv
      exact ⟨a, List.mem_cons_self _ _⟩
    | false =>
      have ht : t.lookup k = some v := by simpa [List.lookup, hbk] using h
      rcases ih ht with ⟨k2, hk2⟩
      exact ⟨k2, List.mem_cons_of_mem _ hk2⟩

/-! ### Claim theorems -/

/-- C1: for every slice whose members resolve to a list of distinct physical
ports `P`, a successful `create_network_slice` submits exactly `|P|` forwarding
rules, one per port `p` of `P` (in order), and the action set of the rule
matching `p` is `P` minus `p` itself (full mesh, self excluded). -/
theorem create_slice_full_mesh (s : NMState) (slice_id : String)
    (slice_members : List String) (ports : List Nat)
    (hres : resolvePorts s.resource_dictionary slice_members = Except.ok ports)
    (hnd : ports.Nodup) :
    (create_network_slice s slice_id slice_members).error = none ∧
    (submittedRules (create_network_slice s slice_id slice_members).trace).length
      = ports.toFinset.card ∧
    (submittedRules (create_network_slice s slice_id slice_members).trace).map Prod.fst
      = ports ∧
    ∀ r ∈ submittedRules (create_network_slice s slice_id slice_members).trace,
      r.2.toFinset = ports.toFinset \ {r.1} := by
  have hsub := submittedRules_create s slice_id slice_members ports hres
  refine ⟨?_, ?_, ?_, ?_⟩
  · rw [create_ok_eq s slice_id slice_members ports hres]
  · rw [hsub, List.length_map, List.toFinset_card_of_nodup hnd]
  · rw [hsub]
    exact map_fst_pairs ports (fun p => ports.filter (fun item => item != p))
  · intro r hr
    rw [hsub] at hr
    rcases List.mem_map.mp hr with ⟨p, hp, rfl⟩
    show (ports.filter (fun item => item != p)).toFinset = ports.toFinset \ {p}
    rw [List.toFinset_filter]
    rw [← Finset.erase_eq, ← Finset.filter_ne']
    apply Finset.filter_congr
    intro a ha
    simp [bne_iff_ne]

/-- Witness for C1, the spec scenario: members icarus1 and icarus5 resolve to
the distinct ports 1 and 3. -/
theorem create_slice_full_mesh_witness :
    resolvePorts initialState.resource_dictionary ["icarus1", "icarus5"]
      = Except.ok [1, 3] ∧
    ([1, 3] : List Nat).Nodup ∧
    ((create_network_slice initialState "slice1" ["icarus1", "icarus5"]).error = none ∧
      (submittedRules
        (create_network_slice initialState "slice1" ["icarus1", "icarus5"]).trace).length
        = ([1, 3] : List Nat).toFinset.card ∧
      (submittedRules
        (create_network_slice initialState "slice1" ["icarus1", "icarus5"]).trace).map
          Prod.fst = [1, 3] ∧
      ∀ r ∈ submittedRules
          (create_network_slice initialState "slice1" ["icarus1", "icarus5"]).trace,
        r.2.toFinset = ([1, 3] : List Nat).toFinset \ {r.1}) :=
  ⟨rfl, by decide,
    create_slice_full_mesh initialState "slice1" ["icarus1", "icarus5"] [1, 3] rfl
      (by decide)⟩

/-- C3 counterexample: a successful create of slice `sliceA` with member list
`[icarus1]` leaves the registry mapping `sliceA` to the `None` placeholder, not
to the member set that was passed in. -/
theorem create_registry_counterexample :
    (create_network_slice initialState "sliceA" ["icarus1"]).error = none ∧
    (create_network_slice initialState "sliceA" ["icarus1"]).state.slices.lookup "sliceA"
      = some none ∧
    (create_network_slice initialState "sliceA" ["icarus1"]).state.slices.lookup "sliceA"
      ≠ some (some ["icarus1"]) := by decide

/-- C3 amended: after every `create_network_slice` call (successful or not) the
registry maps the slice id to the `None` placeholder — recording the slice id
but not its member set — and the entry is written before any external call is
issued: on the abort path, where the trace is empty, the entry is already
present. -/
theorem create_registers_placeholder (s : NMState) (slice_id : String)
    (slice_members : List String) :
    (create_network_slice s slice_id slice_members).state.slices.lookup slice_id
      = some none ∧
    ((create_network_slice s slice_id slice_members).error.isSome = true →
      (create_network_slice s slice_id slice_members).trace = []) := by
  cases hres : resolvePorts s.resource_dictionary slice_members with
  | error name =>
    rw [create_err_eq s slice_id slice_members name hres]
    exact ⟨lookup_dictInsert slice_id none s.slices, fun _ => rfl⟩
  | ok ports =>
    rw [create_ok_eq s slice_id slice_members ports hres]
    refine ⟨lookup_dictInsert slice_id none s.slices, ?_⟩
    intro h
    exact absurd h (by simp)

/-- Witness for the amended C3 at a failing and a fresh slice id. -/
theorem create_registers_placeholder_witness :
    (create_network_slice initialState "sliceA" ["ghost"]).state.slices.lookup "sliceA"
      = some none ∧
    ((create_network_slice initialState "sliceA" ["ghost"]).error.isSome = true →
      (create_network_slice initialState "sliceA" ["ghost"]).trace = []) :=
  create_registers_placeholder initialState "sliceA" ["ghost"]

/-- C4: a create whose member list contains a name absent from the static
resource mapping fails with the UnknownResource-style error (the `KeyError` of
`host_to_port`) and performs no external call: the trace is empty, so no
forwarding rule is submitted and no SSH session is opened. -/
theorem create_unknown_resource_aborts (s : NMState) (slice_id : String)
    (slice_members : List String) (name : String)
    (hmem : name ∈ slice_members)
    (hmiss : host_to_port s.resource_dictionary name = none) :
    (∃ m, (create_network_slice s slice_id slice_members).error
        = some (NMError.unknownResource m)
      ∧ host_to_port s.resource_dictionary m = none) ∧
    (create_network_slice s slice_id slice_members).trace = [] ∧
    submittedRules (create_network_slice s slice_id slice_members).trace = [] ∧
    Event.sshOpen ∉ (create_network_slice s slice_id slice_members).trace := by
  rcases resolvePorts_error_of_unmapped s.resource_dictionary slice_members name hmem hmiss
    with ⟨m, hm, hm2⟩
  rw [create_err_eq s slice_id slice_members m hm]
  exact ⟨⟨m, rfl, hm2⟩, rfl, rfl, by simp⟩

/-- Witness for C4: creating a slice with the unmapped member name ghost. -/
theorem create_unknown_resource_aborts_witness :
    ("ghost" ∈ ["icarus1", "ghost"]) ∧
    host_to_port initialState.resource_dictionary "ghost" = none ∧
    ((∃ m, (create_network_slice initialState "sliceB" ["icarus1", "ghost"]).error
        = some (NMError.unknownResource m)
      ∧ host_to_port initialState.resource_dictionary m = none) ∧
    (create_network_slice initialState "sliceB" ["icarus1", "ghost"]).trace = [] ∧
    submittedRules (create_network_slice initialState "sliceB" ["icarus1", "ghost"]).trace
      = [] ∧
    Event.sshOpen ∉ (create_network_slice initialState "sliceB" ["icarus1", "ghost"]).trace) :=
  ⟨by decide, by decide,
    create_unknown_resource_aborts initialState "sliceB" ["icarus1", "ghost"] "ghost"
      (by decide) (by decide)⟩

/-- C9: a create that fails because a member is unmapped still leaves the
registry modified — the slice id was registered (to the `None` placeholder)
before member resolution, so the failed create is not atomic with respect to
the registry. -/
theorem create_failure_not_atomic (s : NMState) (slice_id : String)
    (slice_members : List String) (name : String)
    (hfresh : s.slices.lookup slice_id = none)
    (hmem : name ∈ slice_members)
    (hmiss : host_to_port s.resource_dictionary name = none) :
    (create_network_slice s slice_id slice_members).error.isSome = true ∧
    (create_network_slice s slice_id slice_members).state.slices.lookup slice_id
      = some none ∧
    (create_network_slice s slice_id slice_members).state.slices ≠ s.slices := by
  rcases resolvePorts_error_of_unmapped s.resource_dictionary slice_members name hmem hmiss
    with ⟨m, hm, _⟩
  rw [create_err_eq s slice_id slice_members m hm]
  refine ⟨rfl, lookup_dictInsert slice_id none s.slices, ?_⟩
  intro hEq
  have h1 : s.slices.lookup slice_id = some none := by
    conv_lhs => rw [← hEq]
    exact lookup_dictInsert slice_id none s.slices
  rw [hfresh] at h1
  exact Option.noConfusion h1

/-- Witness for C9: the failed create of sliceC with the unmapped name ghost
registers sliceC anyway. -/
theorem create_failure_not_atomic_witness :
    (initialState.slices.lookup "sliceC" = none) ∧
    ("ghost" ∈ (["ghost"] : List String)) ∧
    host_to_port initialState.resource_dictionary "ghost" = none ∧
    ((create_network_slice initialState "sliceC" ["ghost"]).error.isSome = true ∧
    (create_network_slice initialState "sliceC" ["ghost"]).state.slices.lookup "sliceC"
      = some none ∧
    (create_network_slice initialState "sliceC" ["ghost"]).state.slices
      ≠ initialState.slices) :=
  ⟨by decide, by decide, by decide,
    create_failure_not_atomic initialState "sliceC" ["ghost"] "ghost" (by decide)
      (by decide) (by decide)⟩

/-- C10: neither lifecycle operation mutates the two static dictionaries: for
every call to create or delete, the name-to-port mapping and the
port-to-control-port mapping are identical before and after the call. -/
theorem static_dictionaries_unchanged (s : NMState) (slice_id : String)
    (slice_members : List String) :
    (create_network_slice s slice_id slice_members).state.resource_dictionary
      = s.resource_dictionary ∧
    (create_network_slice s slice_id slice_members).state.control_resource_dictionary
      = s.control_resource_dictionary ∧
    (delete_network_slice s slice_id slice_members).state.resource_dictionary
      = s.resource_dictionary ∧
    (delete_network_slice s slice_id slice_members).state.control_resource_dictionary
      = s.control_resource_dictionary := by
  unfold create_network_slice delete_network_slice
  cases resolvePorts s.resource_dictionary slice_members <;> simp

theorem delete_state_slices (s : NMState) (slice_id : String)
    (slice_members : List String) :
    (delete_network_slice s slice_id slice_members).state =
      { s with slices := (if dictContains slice_id s.slices then
          dictRemove slice_id s.slices else s.slices) } := by
  unfold delete_network_slice
  cases resolvePorts s.resource_dictionary slice_members <;> rfl

theorem delete_state_not_contains (s : NMState) (slice_id : String)
    (slice_members : List String) :
    dictContains slice_id (delete_network_slice s slice_id slice_members).state.slices
      = false := by
  rw [delete_state_slices]
  show dictContains slice_id (if dictContains slice_id s.slices then
      dictRemove slice_id s.slices else s.slices) = false
  split
  next => exact dictContains_dictRemove slice_id s.slices
  next h => exact Bool.eq_false_iff.mpr h

/-- C2: in every create, for each member port with a control-port mapping, the
control-VLAN removal command for that port is issued (strictly) before the
forwarding rule matching that port is submitted; in every delete, for each such
port, the control-VLAN re-add command is issued before the removal of the rule
matching that port. -/
theorem control_vlan_rule_ordering (s : NMState) (slice_id : String)
    (slice_members : List String) (ports : List Nat) (p : Nat)
    (hres : resolvePorts s.resource_dictionary slice_members = Except.ok ports)
    (hp : p ∈ ports)
    (hc : dictContains (toString p) s.control_resource_dictionary = true) :
    (∃ acts,
      List.Sublist
        [Event.sshCmd (remove_control_cmd
            ((port_translate_to_brocade s.control_resource_dictionary p).getD 0)),
          Event.submitRule p acts 1]
        (create_network_slice s slice_id slice_members).trace) ∧
    List.Sublist
      [Event.sshCmd (add_control_cmd
          ((port_translate_to_brocade s.control_resource_dictionary p).getD 0)),
        Event.removeRule p]
      (delete_network_slice s slice_id slice_members).trace := by
  constructor
  · refine ⟨ports.filter (fun item => item != p), ?_⟩
    rw [create_ok_eq s slice_id slice_members ports hres]
    have hmem : create_port_step s.control_resource_dictionary ports p
        ∈ ports.map (create_port_step s.control_resource_dictionary ports) :=
      List.mem_map_of_mem _ hp
    refine List.Sublist.trans ?_ (List.sublist_flatten_of_mem hmem)
    unfold create_port_step rem_port_from_control
    rw [if_pos hc]
    exact List.Sublist.cons _ (List.Sublist.cons₂ _ (List.Sublist.cons _
      (List.Sublist.cons₂ _ List.Sublist.slnil)))
  · rw [delete_ok_eq s slice_id slice_members ports hres]
    have hmem : delete_port_step s.control_resource_dictionary p
        ∈ ports.map (delete_port_step s.control_resource_dictionary) :=
      List.mem_map_of_mem _ hp
    refine List.Sublist.trans ?_ (List.sublist_flatten_of_mem hmem)
    unfold delete_port_step add_port_to_control
    rw [if_pos hc]
    exact List.Sublist.cons _ (List.Sublist.cons₂ _ (List.Sublist.cons _
      (List.Sublist.cons₂ _ List.Sublist.slnil)))

/-- Witness for C2 at the spec scenario: port 1 (from icarus1) has the control
mapping to Brocade port 7. -/
theorem control_vlan_rule_ordering_witness :
    resolvePorts initialState.resource_dictionary ["icarus1", "icarus5"]
      = Except.ok [1, 3] ∧
    (1 : Nat) ∈ ([1, 3] : List Nat) ∧
    dictContains (toString (1 : Nat)) initialState.control_resource_dictionary = true ∧
    ((∃ acts,
      List.Sublist
        [Event.sshCmd (remove_control_cmd
            ((port_translate_to_brocade initialState.control_resource_dictionary 1).getD 0)),
          Event.submitRule 1 acts 1]
        (create_network_slice initialState "slice1" ["icarus1", "icarus5"]).trace) ∧
    List.Sublist
      [Event.sshCmd (add_control_cmd
          ((port_translate_to_brocade initialState.control_resource_dictionary 1).getD 0)),
        Event.removeRule 1]
      (delete_network_slice initialState "slice1" ["icarus1", "icarus5"]).trace) :=
  ⟨rfl, by decide, by decide,
    control_vlan_rule_ordering initialState "slice1" ["icarus1", "icarus5"] [1, 3] 1 rfl
      (by decide) (by decide)⟩

/-- C5 counterexample: the physical-port-to-control-port lookup is not total:
on port 2, which has no control entry, `port_translate_to_brocade` raises a
`KeyError` (modelled as `none`) instead of returning an absence flag. -/
theorem port_translate_counterexample :
    (port_translate_to_brocade control_resource_dictionary 2).isSome = false := by
  decide

/-- C5 amended: the lookup is partial, not total: it succeeds exactly on the
physical ports that have a control entry and raises (`KeyError`) on all
others; absence is handled not inside the lookup but by the membership guard
its callers perform before invoking it. -/
theorem port_translate_succeeds_iff_mapped (p : Nat) :
    (port_translate_to_brocade control_resource_dictionary p).isSome
      = dictContains (toString p) control_resource_dictionary := by
  cases hc : dictContains (toString p) control_resource_dictionary with
  | false =>
    unfold port_translate_to_brocade
    rw [lookup_none_of_not_contains _ _ hc]
    rfl
  | true =>
    rcases lookup_isSome_of_contains _ _ hc with ⟨v, hv⟩
    rcases lookup_mem _ v _ hv with ⟨k2, hk2⟩
    have hall : ∀ kv ∈ control_resource_dictionary, (parse_nat kv.2).isSome = true := by
      decide
    have hpv : (parse_nat v).isSome = true := hall (k2, v) hk2
    unfold port_translate_to_brocade
    rw [hv]
    simpa using hpv

/-- C6: deleting a slice id that is not in the registry, with an all-mapped
member list, does not fail: the call records the not-found signal and still
issues, for every member port, the control-VLAN restore (when the port has a
control mapping) and the removal of the forwarding rule matching that port. -/
theorem delete_tolerant (s : NMState) (slice_id : String)
    (slice_members : List String) (ports : List Nat)
    (hmiss : dictContains slice_id s.slices = false)
    (hres : resolvePorts s.resource_dictionary slice_members = Except.ok ports) :
    (delete_network_slice s slice_id slice_members).error = none ∧
    (delete_network_slice s slice_id slice_members).signals
      = [Signal.notFound slice_id] ∧
    ∀ p ∈ ports,
      (dictContains (toString p) s.control_resource_dictionary = true →
        Event.sshCmd (add_control_cmd
            ((port_translate_to_brocade s.control_resource_dictionary p).getD 0))
          ∈ (delete_network_slice s slice_id slice_members).trace) ∧
      Event.removeRule p ∈ (delete_network_slice s slice_id slice_members).trace := by
  rw [delete_ok_eq s slice_id slice_members ports hres]
  refine ⟨rfl, by simp [hmiss], ?_⟩
  intro p hp
  constructor
  · intro hc
    refine List.mem_flatten.mpr ⟨delete_port_step s.control_resource_dictionary p,
      List.mem_map_of_mem _ hp, ?_⟩
    unfold delete_port_step add_port_to_control
    rw [if_pos hc]
    simp
  · refine List.mem_flatten.mpr ⟨delete_port_step s.control_resource_dictionary p,
      List.mem_map_of_mem _ hp, ?_⟩
    unfold delete_port_step
    split <;> simp

/-- Witness for C6: deleting the never-created slice id ghostSlice with members
icarus1 and icarus5. -/
theorem delete_tolerant_witness :
    dictContains "ghostSlice" initialState.slices = false ∧
    resolvePorts initialState.resource_dictionary ["icarus1", "icarus5"]
      = Except.ok [1, 3] ∧
    ((delete_network_slice initialState "ghostSlice" ["icarus1", "icarus5"]).error
        = none ∧
    (delete_network_slice initialState "ghostSlice" ["icarus1", "icarus5"]).signals
      = [Signal.notFound "ghostSlice"] ∧
    ∀ p ∈ ([1, 3] : List Nat),
      (dictContains (toString p) initialState.control_resource_dictionary = true →
        Event.sshCmd (add_control_cmd
            ((port_translate_to_brocade initialState.control_resource_dictionary p).getD 0))
          ∈ (delete_network_slice initialState "ghostSlice" ["icarus1", "icarus5"]).trace) ∧
      Event.removeRule p
        ∈ (delete_network_slice initialState "ghostSlice" ["icarus1", "icarus5"]).trace) :=
  ⟨by decide, rfl,
    delete_tolerant initialState "ghostSlice" ["icarus1", "icarus5"] [1, 3] (by decide) rfl⟩

/-- C7: issuing delete twice in a row with the same slice id and the same
all-mapped member list leaves the slice registry in the same end state as
issuing it once, and the second call does not fail — it records only the
non-fatal not-found signal. -/
theorem delete_idempotent_registry (s : NMState) (slice_id : String)
    (slice_members : List String) (ports : List Nat)
    (hres : resolvePorts s.resource_dictionary slice_members = Except.ok ports) :
    (delete_network_slice (delete_network_slice s slice_id slice_members).state
        slice_id slice_members).state.slices
      = (delete_network_slice s slice_id slice_members).state.slices ∧
    (delete_network_slice (delete_network_slice s slice_id slice_members).state
        slice_id slice_members).error = none ∧
    (delete_network_slice (delete_network_slice s slice_id slice_members).state
        slice_id slice_members).signals = [Signal.notFound slice_id] := by
  have h1 := delete_state_not_contains s slice_id slice_members
  have hres2 : resolvePorts
      (delete_network_slice s slice_id slice_members).state.resource_dictionary
      slice_members = Except.ok ports := by
    rw [delete_state_slices]
    exact hres
  rw [delete_ok_eq _ slice_id slice_members ports hres2]
  exact ⟨by simp [h1], rfl, by simp [h1]⟩

/-- Witness for C7: deleting slice slice1 twice from the initial state. -/
theorem delete_idempotent_registry_witness :
    resolvePorts initialState.resource_dictionary ["icarus8"] = Except.ok [5] ∧
    ((delete_network_slice (delete_network_slice initialState "slice1" ["icarus8"]).state
        "slice1" ["icarus8"]).state.slices
      = (delete_network_slice initialState "slice1" ["icarus8"]).state.slices ∧
    (delete_network_slice (delete_network_slice initialState "slice1" ["icarus8"]).state
        "slice1" ["icarus8"]).error = none ∧
    (delete_network_slice (delete_network_slice initialState "slice1" ["icarus8"]).state
        "slice1" ["icarus8"]).signals = [Signal.notFound "slice1"]) :=
  ⟨rfl, delete_idempotent_registry initialState "slice1" ["icarus8"] [5] rfl⟩

/-- C8: create on an already-registered slice id is non-fatal: the
warning-level conflict signal is recorded, the registry entry is overwritten
with the `None` placeholder, and the external calls and the error outcome are
identical to a create of the same members on a state where the id is fresh. -/
theorem create_conflict_proceeds (s : NMState) (slice_id : String)
    (slice_members : List String)
    (hex : dictContains slice_id s.slices = true) :
    (create_network_slice s slice_id slice_members).signals
      = [Signal.conflict slice_id] ∧
    (create_network_slice s slice_id slice_members).state.slices.lookup slice_id
      = some none ∧
    (create_network_slice s slice_id slice_members).trace
      = (create_network_slice { s with slices := dictRemove slice_id s.slices }
          slice_id slice_members).trace ∧
    (create_network_slice s slice_id slice_members).error
      = (create_network_slice { s with slices := dictRemove slice_id s.slices }
          slice_id slice_members).error := by
  cases hres : resolvePorts s.resource_dictionary slice_members with
  | error name =>
    rw [create_err_eq s slice_id slice_members name hres,
      create_err_eq { s with slices := dictRemove slice_id s.slices } slice_id
        slice_members name hres]
    exact ⟨by simp [hex], lookup_dictInsert slice_id none s.slices, rfl, rfl⟩
  | ok ports =>
    rw [create_ok_eq s slice_id slice_members ports hres,
      create_ok_eq { s with slices := dictRemove slice_id s.slices } slice_id
        slice_members ports hres]
    exact ⟨by simp [hex], lookup_dictInsert slice_id none s.slices, rfl, rfl⟩

/-- Witness for C8: creating slice sliceA twice in a row; the second create
hits the conflict path. -/
theorem create_conflict_proceeds_witness :
    dictContains "sliceA"
      (create_network_slice initialState "sliceA" ["icarus1"]).state.slices = true ∧
    ((create_network_slice (create_network_slice initialState "sliceA" ["icarus1"]).state
        "sliceA" ["icarus1"]).signals = [Signal.conflict "sliceA"] ∧
    (create_network_slice (create_network_slice initialState "sliceA" ["icarus1"]).state
        "sliceA" ["icarus1"]).state.slices.lookup "sliceA" = some none ∧
    (create_network_slice (create_network_slice initialState "sliceA" ["icarus1"]).state
        "sliceA" ["icarus1"]).trace
      = (create_network_slice
          { (create_network_slice initialState "sliceA" ["icarus1"]).state with
            slices := dictRemove "sliceA"
              (create_network_slice initialState "sliceA" ["icarus1"]).state.slices }
          "sliceA" ["icarus1"]).trace ∧
    (create_network_slice (create_network_slice initialState "sliceA" ["icarus1"]).state
        "sliceA" ["icarus1"]).error
      = (create_network_slice
          { (create_network_slice initialState "sliceA" ["icarus1"]).state with
            slices := dictRemove "sliceA"
              (create_network_slice initialState "sliceA" ["icarus1"]).state.slices }
          "sliceA" ["icarus1"]).error) :=
  ⟨by decide,
    create_conflict_proceeds (create_network_slice initialState "sliceA" ["icarus1"]).state
      "sliceA" ["icarus1"] (by decide)⟩

end NetworkManager
